import Mathlib

/-!
# Shallow embedding of `database_manager.py` (KidsCodeQuiz)

The source file implements a SQLite-backed data store (`DatabaseManager`)
with four tables: `users`, `user_progress`, `user_events`, `certificates`.
We embed the store as a pure state `DB` holding the rows of the four tables
and the auto-increment counters, and each Python method as a function
`DB → ... → result × DB` (or `DB → result` for reads).

Modelling conventions:
* `CURRENT_TIMESTAMP` is an ambient clock value passed to each operation as
  an explicit `now : Nat` parameter.
* TEXT columns holding JSON-encoded lists of strings
  (`completed_tutorials`, `completed_challenges`, `emoji_collection`) are
  modelled directly as `List String`: `json.dumps` / `json.loads` round-trip
  lists of strings exactly.
* The `UNIQUE` constraints (`users.username`, `certificates.certificate_code`)
  are modelled by an explicit membership test standing for the
  `sqlite3.IntegrityError` raised by the violating `INSERT`; on violation the
  connection is closed without commit, so the state is returned unchanged.
* `log_event` swallows any storage fault (`except Exception: print(...)`).
  The possibility of the underlying insert failing is modelled by an explicit
  oracle `efail : Bool` threaded into every operation that logs an event:
  when `efail = true` the insert fails and the event is dropped, and
  `log_event` still returns normally.
* `uuid.uuid4()` in `create_certificate` is modelled by an explicit `code`
  parameter (the generated token).
* `SELECT ... LIMIT 1` / `fetchone` on a non-keyed query returns the first
  row in table (insertion) order, modelled by `List.find?` / `List.head?`.
-/

/-- A row of the `users` table.  The SQLite columns `class` and `section`
are Lean keywords and are embedded as the fields `cls` and `sect`. -/
structure UserRow where
  id : Nat
  username : String
  password_hash : String
  full_name : Option String
  parent_name : Option String
  dob : Option String
  cls : Option String
  sect : Option String
  school : Option String
  is_admin : Bool
  created_at : Nat
  last_login : Option Nat
deriving DecidableEq, Repr

/-- A row of the `user_progress` table. -/
structure ProgressRow where
  id : Nat
  user_id : Nat
  points : Int
  completed_tutorials : List String
  completed_challenges : List String
  emoji_collection : List String
  last_updated : Nat
deriving DecidableEq, Repr

/-- A row of the `user_events` table. -/
structure EventRow where
  id : Nat
  user_id : Nat
  event_type : String
  event_details : Option String
  timestamp : Nat
deriving DecidableEq, Repr

/-- A row of the `certificates` table. -/
structure CertRow where
  id : Nat
  user_id : Nat
  certificate_type : String
  issue_date : Nat
  certificate_code : String
  completed_date : Option Nat
deriving DecidableEq, Repr

/-- The whole database file: the four tables (rows in insertion order) and
the `AUTOINCREMENT` counters. -/
structure DB where
  users : List UserRow
  user_progress : List ProgressRow
  user_events : List EventRow
  certificates : List CertRow
  next_user_id : Nat
  next_progress_id : Nat
  next_event_id : Nat
  next_cert_id : Nat
deriving DecidableEq, Repr

/-- The empty database file, as produced by `initialize_database` on a fresh
path (ids start at 1, as SQLite AUTOINCREMENT does). -/
def DB.empty : DB :=
  { users := [], user_progress := [], user_events := [], certificates := [],
    next_user_id := 1, next_progress_id := 1, next_event_id := 1, next_cert_id := 1 }

/-- The `profile_data` dict passed to `add_user` / `update_user_profile`:
each key may be absent (`dict.get(key, '')` supplies the default). -/
structure ProfileData where
  full_name : Option String
  parent_name : Option String
  dob : Option String
  cls : Option String
  sect : Option String
  school : Option String
deriving DecidableEq, Repr

/-- `_run_migrations(conn, cursor)`.  Migration 1 (adding the `is_admin`
column) is a no-op in the embedding because the column always exists in the
`UserRow` type.  Migration 2: if `COUNT(*) FROM users WHERE is_admin = 1`
is zero, take `SELECT id FROM users LIMIT 1` (the first row) and set its
`is_admin` to 1. -/
def run_migrations (db : DB) : DB :=
  let admin_count := db.users.countP (fun u => u.is_admin)
  if admin_count = 0 then
    match db.users.head? with
    | some u =>
        { db with users := db.users.map (fun v =>
            if v.id == u.id then { v with is_admin := true } else v) }
    | none => db
  else db

/-- `initialize_database()`: `CREATE TABLE IF NOT EXISTS` for the four
tables (a no-op on an embedded state, which always has the four tables),
then `_run_migrations`. -/
def init_database (db : DB) : DB :=
  run_migrations db

/-- `log_event(user_id, event_type, event_details=None)`: insert into
`user_events`; any exception from the insert is caught and swallowed
(`efail = true` models the insert failing), so the function always returns
normally (`Unit`). -/
def log_event (now : Nat) (efail : Bool) (db : DB) (user_id : Nat)
    (event_type : String) (event_details : Option String) : Unit × DB :=
  if efail then ((), db)
  else
    ((), { db with
      user_events := db.user_events ++
        [{ id := db.next_event_id, user_id := user_id, event_type := event_type,
           event_details := event_details, timestamp := now }],
      next_event_id := db.next_event_id + 1 })

/-- `add_user(username, password_hash, profile_data=None, is_admin=False)`:
insert the user row (profile fields from `profile_data.get(key, '')` when a
dict is given, else NULL), insert an empty `user_progress` row for the new
id, log a `user_created` event, commit, and return `cursor.lastrowid`.
A duplicate username raises `sqlite3.IntegrityError` from the first insert,
which is caught: `None` is returned and nothing is committed. -/
def add_user (now : Nat) (efail : Bool) (db : DB) (username password_hash : String)
    (profile_data : Option ProfileData) (is_admin : Bool) : Option Nat × DB :=
  if db.users.any (fun u => u.username == username) then (none, db)
  else
    let uid := db.next_user_id
    let urow : UserRow :=
      match profile_data with
      | some p =>
          { id := uid, username := username, password_hash := password_hash,
            full_name := some (p.full_name.getD ""),
            parent_name := some (p.parent_name.getD ""),
            dob := some (p.dob.getD ""),
            cls := some (p.cls.getD ""),
            sect := some (p.sect.getD ""),
            school := some (p.school.getD ""),
            is_admin := is_admin, created_at := now, last_login := none }
      | none =>
          { id := uid, username := username, password_hash := password_hash,
            full_name := none, parent_name := none, dob := none,
            cls := none, sect := none, school := none,
            is_admin := is_admin, created_at := now, last_login := none }
    let prow : ProgressRow :=
      { id := db.next_progress_id, user_id := uid, points := 0,
        completed_tutorials := [], completed_challenges := [],
        emoji_collection := [], last_updated := now }
    let db1 : DB :=
      { db with
        users := db.users ++ [urow], next_user_id := uid + 1,
        user_progress := db.user_progress ++ [prow],
        next_progress_id := db.next_progress_id + 1 }
    let db2 := (log_event now efail db1 uid "user_created"
      (some ("User account created for " ++ username))).2
    (some uid, db2)

/-- `update_last_login(user_id)`:
`UPDATE users SET last_login = CURRENT_TIMESTAMP WHERE id = ?`. -/
def update_last_login (now : Nat) (db : DB) (user_id : Nat) : DB :=
  { db with users := db.users.map (fun u =>
      if u.id == user_id then { u with last_login := some now } else u) }

/-- The snapshot dict returned by `get_user_progress`. -/
structure ProgressSnapshot where
  points : Int
  completed_tutorials : List String
  completed_challenges : List String
  emoji_collection : List String
deriving DecidableEq, Repr

/-- `get_user_progress(user_id)`: `SELECT ... FROM user_progress WHERE
user_id = ?`, `fetchone`; if a row is found return its fields (JSON text
columns decoded), else return the zero-value default dict. -/
def get_user_progress (db : DB) (user_id : Nat) : ProgressSnapshot :=
  match db.user_progress.find? (fun p => p.user_id == user_id) with
  | some p =>
      { points := p.points, completed_tutorials := p.completed_tutorials,
        completed_challenges := p.completed_challenges,
        emoji_collection := p.emoji_collection }
  | none =>
      { points := 0, completed_tutorials := [], completed_challenges := [],
        emoji_collection := [] }

/-- `update_user_progress(user_id, points, completed_tutorials,
completed_challenges, emoji_collection)`: `UPDATE user_progress SET ...,
last_updated = CURRENT_TIMESTAMP WHERE user_id = ?` (every matching row is
updated; zero matching rows is not an error), commit, return `True`. -/
def update_user_progress (now : Nat) (db : DB) (user_id : Nat) (points : Int)
    (completed_tutorials completed_challenges emoji_collection : List String) :
    Bool × DB :=
  (true, { db with user_progress := db.user_progress.map (fun p =>
      if p.user_id == user_id then
        { p with
          points := points,
          completed_tutorials := completed_tutorials,
          completed_challenges := completed_challenges,
          emoji_collection := emoji_collection,
          last_updated := now }
      else p) })

/-- The snapshot dict returned for each entry of `get_user_events`. -/
structure EventSnapshot where
  event_type : String
  event_details : Option String
  timestamp : Nat
deriving DecidableEq, Repr

/-- Insert an event into a timestamp-descending list, before the first
entry whose timestamp is `≤` its own (stable for equal timestamps). -/
def insert_ts_desc (e : EventRow) : List EventRow → List EventRow
  | [] => [e]
  | x :: xs => if x.timestamp ≤ e.timestamp then e :: x :: xs else x :: insert_ts_desc e xs

/-- Stable sort by timestamp, descending: the order produced by
`ORDER BY timestamp DESC`. -/
def sort_ts_desc : List EventRow → List EventRow
  | [] => []
  | x :: xs => insert_ts_desc x (sort_ts_desc xs)

/-- `get_user_events(user_id, limit=50)`: `SELECT event_type, event_details,
timestamp FROM user_events WHERE user_id = ? ORDER BY timestamp DESC
LIMIT ?`.  `ORDER BY timestamp DESC` is a stable sort on the timestamp
column, descending; `LIMIT` truncates. -/
def get_user_events (db : DB) (user_id : Nat) (limit : Nat) : List EventSnapshot :=
  ((sort_ts_desc (db.user_events.filter (fun e => e.user_id == user_id))).take
      limit).map
    (fun e => { event_type := e.event_type, event_details := e.event_details,
                timestamp := e.timestamp })

/-- `create_certificate(user_id, certificate_type)`: generate a fresh
`uuid4` code (the `code` parameter), insert an issued-state row
(`completed_date` NULL), commit, log a `certificate_created` event and
return the code; any exception (e.g. the UNIQUE constraint on
`certificate_code`) is caught and `None` returned with nothing committed. -/
def create_certificate (now : Nat) (efail : Bool) (code : String) (db : DB)
    (user_id : Nat) (certificate_type : String) : Option String × DB :=
  if db.certificates.any (fun c => c.certificate_code == code) then (none, db)
  else
    let db1 : DB :=
      { db with
        certificates := db.certificates ++
          [{ id := db.next_cert_id, user_id := user_id,
             certificate_type := certificate_type, issue_date := now,
             certificate_code := code, completed_date := none }],
        next_cert_id := db.next_cert_id + 1 }
    let db2 := (log_event now efail db1 user_id "certificate_created"
      (some ("Certificate of type " ++ certificate_type ++
             " created with code " ++ code))).2
    (some code, db2)

/-- `complete_certificate(certificate_code)`: `UPDATE certificates SET
completed_date = CURRENT_TIMESTAMP WHERE certificate_code = ?` (zero
matching rows is not an error), commit; then `SELECT user_id,
certificate_type ... WHERE certificate_code = ?` and, if a row is found,
log a `certificate_completed` event; return `True`. -/
def complete_certificate (now : Nat) (efail : Bool) (db : DB)
    (certificate_code : String) : Bool × DB :=
  let db1 : DB :=
    { db with certificates := db.certificates.map (fun c =>
        if c.certificate_code == certificate_code then
          { c with completed_date := some now }
        else c) }
  match db1.certificates.find? (fun c => c.certificate_code == certificate_code) with
  | some c =>
      let db2 := (log_event now efail db1 c.user_id "certificate_completed"
        (some ("Certificate of type " ++ c.certificate_type ++ " with code " ++
               certificate_code ++ " completed"))).2
      (true, db2)
  | none => (true, db1)

/-- The profile sub-dict built by `verify_certificate`
(`result[i] or ''` defaults NULL — and the falsy empty string — to `''`). -/
structure ProfileSnapshot where
  full_name : String
  parent_name : String
  dob : String
  cls : String
  sect : String
  school : String
deriving DecidableEq, Repr

/-- The snapshot dict returned by `verify_certificate` when the code
resolves; the not-found case `\x7bis_valid: False\x7d` is modelled by
`none`, so `is_valid` is `Option.isSome` of the result. -/
structure CertSnapshot where
  certificate_type : String
  issue_date : Nat
  completed_date : Option Nat
  username : String
  profile_data : ProfileSnapshot
  user_id : Nat
  is_completed : Bool
deriving DecidableEq, Repr

/-- `verify_certificate(certificate_code)`: `SELECT ... FROM certificates c
JOIN users u ON c.user_id = u.id WHERE c.certificate_code = ?`, `fetchone`.
The inner join produces a row only when a user row with the certificate's
`user_id` exists; with no row the dict `\x7bis_valid: False\x7d` (here
`none`) is returned. -/
def verify_certificate (db : DB) (certificate_code : String) : Option CertSnapshot :=
  match db.certificates.find? (fun c => c.certificate_code == certificate_code) with
  | none => none
  | some c =>
    match db.users.find? (fun u => u.id == c.user_id) with
    | none => none
    | some u =>
        some { certificate_type := c.certificate_type,
               issue_date := c.issue_date,
               completed_date := c.completed_date,
               username := u.username,
               profile_data :=
                 { full_name := u.full_name.getD "",
                   parent_name := u.parent_name.getD "",
                   dob := u.dob.getD "",
                   cls := u.cls.getD "",
                   sect := u.sect.getD "",
                   school := u.school.getD "" },
               user_id := u.id,
               is_completed := c.completed_date.isSome }

/-- `update_user_profile(user_id, profile_data)`: `UPDATE users SET
full_name = ?, ... WHERE id = ?` with `profile_data.get(key, '')` values
(zero matching rows is not an error), commit, return `True`. -/
def update_user_profile (db : DB) (user_id : Nat) (profile_data : ProfileData) :
    Bool × DB :=
  (true, { db with users := db.users.map (fun u =>
      if u.id == user_id then
        { u with
          full_name := some (profile_data.full_name.getD ""),
          parent_name := some (profile_data.parent_name.getD ""),
          dob := some (profile_data.dob.getD ""),
          cls := some (profile_data.cls.getD ""),
          sect := some (profile_data.sect.getD ""),
          school := some (profile_data.school.getD "") }
      else u) })

/-- `set_admin_status(user_id, is_admin)`: `UPDATE users SET is_admin = ?
WHERE id = ?` (zero matching rows is not an error), commit, return `True`. -/
def set_admin_status (db : DB) (user_id : Nat) (is_admin : Bool) : Bool × DB :=
  (true, { db with users := db.users.map (fun u =>
      if u.id == user_id then { u with is_admin := is_admin } else u) })

/-- `reset_user_password(user_id, new_password_hash)`: `UPDATE users SET
password_hash = ? WHERE id = ?` (zero matching rows is not an error),
commit, log a `password_reset` event, return `True`. -/
def reset_user_password (now : Nat) (efail : Bool) (db : DB) (user_id : Nat)
    (new_password_hash : String) : Bool × DB :=
  let db1 : DB :=
    { db with users := db.users.map (fun u =>
        if u.id == user_id then { u with password_hash := new_password_hash }
        else u) }
  let db2 := (log_event now efail db1 user_id "password_reset"
    (some "Password was reset by administrator")).2
  (true, db2)

/-- Every state-mutating operation of the store, for trace/invariant
statements.  Read operations (`get_user`, `get_user_by_id`,
`get_all_users`, `get_user_progress`, `get_user_events`,
`get_user_certificates`, `verify_certificate`) do not change the state, and
`migrate_data_from_json` only invokes `addUser` / `updateUserProgress`, so
every reachable state transition is a composition of these steps. -/
inductive Op where
  | addUser (now : Nat) (efail : Bool) (username password_hash : String)
      (profile_data : Option ProfileData) (is_admin : Bool)
  | updateLastLogin (now : Nat) (user_id : Nat)
  | updateUserProgress (now : Nat) (user_id : Nat) (points : Int)
      (completed_tutorials completed_challenges emoji_collection : List String)
  | logEvent (now : Nat) (efail : Bool) (user_id : Nat) (event_type : String)
      (event_details : Option String)
  | createCertificate (now : Nat) (efail : Bool) (code : String)
      (user_id : Nat) (certificate_type : String)
  | completeCertificate (now : Nat) (efail : Bool) (certificate_code : String)
  | updateUserProfile (user_id : Nat) (profile_data : ProfileData)
  | setAdminStatus (user_id : Nat) (is_admin : Bool)
  | resetUserPassword (now : Nat) (efail : Bool) (user_id : Nat)
      (new_password_hash : String)
  | initDatabase
deriving Repr

/-- The state transition performed by one store operation. -/
def Op.step (op : Op) (db : DB) : DB :=
  match op with
  | .addUser now efail username ph p adm => (add_user now efail db username ph p adm).2
  | .updateLastLogin now uid => update_last_login now db uid
  | .updateUserProgress now uid pts t c e =>
      (update_user_progress now db uid pts t c e).2
  | .logEvent now efail uid ty d => (log_event now efail db uid ty d).2
  | .createCertificate now efail code uid ty =>
      (create_certificate now efail code db uid ty).2
  | .completeCertificate now efail code => (complete_certificate now efail db code).2
  | .updateUserProfile uid p => (update_user_profile db uid p).2
  | .setAdminStatus uid adm => (set_admin_status db uid adm).2
  | .resetUserPassword now efail uid h => (reset_user_password now efail db uid h).2
  | .initDatabase => init_database db

/-- A sample store: the result of `add_user(10, "alice")` on a fresh
database file (user id 1, an empty progress row, one `user_created`
event). -/
def sampleDB : DB := (add_user 10 false DB.empty "alice" "h" none false).2

/-- `sampleDB` after `create_certificate` (code `"abc"`, user 1) and
`complete_certificate("abc")`: it holds one completed certificate. -/
def certDB : DB :=
  (complete_certificate 14 false
    (create_certificate 13 false "abc" sampleDB 1 "gold").2 "abc").2

/-- `sampleDB` after one further `log_event` in the same clock second as
the `user_created` event: user 1 has two events with equal timestamps. -/
def tieDB : DB := (log_event 10 false sampleDB 1 "login" none).2

/-! ### Helper lemmas -/

theorem log_event_snd_users (now : Nat) (efail : Bool) (db : DB) (uid : Nat)
    (ty : String) (d : Option String) :
    (log_event now efail db uid ty d).2.users = db.users := by
  cases efail <;> rfl

theorem log_event_snd_user_progress (now : Nat) (efail : Bool) (db : DB) (uid : Nat)
    (ty : String) (d : Option String) :
    (log_event now efail db uid ty d).2.user_progress = db.user_progress := by
  cases efail <;> rfl

theorem log_event_snd_certificates (now : Nat) (efail : Bool) (db : DB) (uid : Nat)
    (ty : String) (d : Option String) :
    (log_event now efail db uid ty d).2.certificates = db.certificates := by
  cases efail <;> rfl

theorem map_eq_self_of_eq_id {α : Type} (l : List α) (f : α → α)
    (h : ∀ x ∈ l, f x = x) : l.map f = l := by
  rw [List.map_congr_left h]
  exact List.map_id' l

theorem complete_certificate_snd_certificates (now : Nat) (efail : Bool) (db : DB)
    (code : String) :
    (complete_certificate now efail db code).2.certificates =
      db.certificates.map (fun c =>
        if c.certificate_code == code then { c with completed_date := some now }
        else c) := by
  unfold complete_certificate
  dsimp only
  split
  · rw [log_event_snd_certificates]
  · rfl

theorem complete_certificate_snd_users (now : Nat) (efail : Bool) (db : DB)
    (code : String) :
    (complete_certificate now efail db code).2.users = db.users := by
  unfold complete_certificate
  dsimp only
  split
  · rw [log_event_snd_users]
  · rfl

theorem run_migrations_of_admin (db : DB)
    (h : db.users.countP (fun u => u.is_admin) ≠ 0) :
    run_migrations db = db := by
  unfold run_migrations
  simp [h]

theorem find?_map_update (uid now : Nat) (pts : Int) (t c e : List String)
    (l : List ProgressRow) (h : ∃ p ∈ l, p.user_id = uid) :
    ∃ r, List.find? (fun q => q.user_id == uid)
        (l.map (fun p =>
          if p.user_id == uid then
            { p with
              points := pts,
              completed_tutorials := t,
              completed_challenges := c,
              emoji_collection := e,
              last_updated := now }
          else p)) = some r ∧
      r.points = pts ∧ r.completed_tutorials = t ∧
      r.completed_challenges = c ∧ r.emoji_collection = e := by
  induction l with
  | nil => simp at h
  | cons a l ih =>
    by_cases ha : a.user_id = uid
    · exact ⟨{ a with
          points := pts, completed_tutorials := t, completed_challenges := c,
          emoji_collection := e, last_updated := now },
        by simp [ha], rfl, rfl, rfl, rfl⟩
    · have h' : ∃ p ∈ l, p.user_id = uid := by
        obtain ⟨p, hp, hpu⟩ := h
        cases List.mem_cons.mp hp with
        | inl heq => exact absurd (heq ▸ hpu) ha
        | inr hmem => exact ⟨p, hmem, hpu⟩
      obtain ⟨r, hr, h1, h2, h3, h4⟩ := ih h'
      exact ⟨r, by simpa [ha] using hr, h1, h2, h3, h4⟩

/-- C1: for every user id with an existing progress row,
`update_user_progress(id, points, tutorials, challenges, emojis)` followed
by `get_user_progress(id)` returns exactly the values written: the same
points and the same three sequences in the same order. -/
theorem update_then_get_roundtrip (now : Nat) (db : DB) (uid : Nat) (pts : Int)
    (t c e : List String) (h : ∃ p ∈ db.user_progress, p.user_id = uid) :
    get_user_progress (update_user_progress now db uid pts t c e).2 uid =
      { points := pts, completed_tutorials := t, completed_challenges := c,
        emoji_collection := e } := by
  obtain ⟨r, hr, h1, h2, h3, h4⟩ := find?_map_update uid now pts t c e db.user_progress h
  simp only [get_user_progress, update_user_progress]
  rw [hr]
  simp [h1, h2, h3, h4]

/-- Witness for C1 on a concrete store with a progress row for user 1. -/
theorem update_then_get_roundtrip_witness :
    (∃ p ∈ sampleDB.user_progress, p.user_id = 1) ∧
    get_user_progress (update_user_progress 12 sampleDB 1 5 ["t"] ["c"] ["e"]).2 1 =
      { points := 5, completed_tutorials := ["t"], completed_challenges := ["c"],
        emoji_collection := ["e"] } :=
  ⟨by decide, update_then_get_roundtrip 12 sampleDB 1 5 ["t"] ["c"] ["e"] (by decide)⟩

/-- C2: for every username already present (exactly once, as the UNIQUE
constraint guarantees) in the store, `add_user` with that username returns
the duplicate signal `None` rather than raising, and the store afterwards
still contains exactly one user row with that username. -/
theorem add_user_duplicate (now : Nat) (efail : Bool) (db : DB)
    (username password_hash : String) (profile_data : Option ProfileData)
    (is_admin : Bool)
    (h : db.users.countP (fun u => u.username == username) = 1) :
    (add_user now efail db username password_hash profile_data is_admin).1 = none ∧
    (add_user now efail db username password_hash profile_data is_admin).2.users.countP
      (fun u => u.username == username) = 1 := by
  have hpos : 0 < db.users.countP (fun u => u.username == username) := by omega
  have hany : db.users.any (fun u => u.username == username) = true :=
    List.any_eq_true.mpr (List.countP_pos_iff.mp hpos)
  simp only [add_user, hany, if_true]
  exact ⟨trivial, h⟩

/-- Witness for C2: `sampleDB` holds exactly one row named `alice`. -/
theorem add_user_duplicate_witness :
    sampleDB.users.countP (fun u => u.username == "alice") = 1 ∧
    (add_user 11 false sampleDB "alice" "h2" none false).1 = none ∧
    (add_user 11 false sampleDB "alice" "h2" none false).2.users.countP
      (fun u => u.username == "alice") = 1 :=
  ⟨by decide, add_user_duplicate 11 false sampleDB "alice" "h2" none false (by decide)⟩

/-- C3: `add_user` on a fresh username returns the new user's id and
creates an empty `user_progress` row alongside the user row, so
`get_user_progress` on the new id returns 0 points and three empty
sequences.  (The second hypothesis is the AUTOINCREMENT invariant: no
existing progress row already carries the id about to be assigned.) -/
theorem fresh_user_zero_progress (now : Nat) (efail : Bool) (db : DB)
    (username password_hash : String) (profile_data : Option ProfileData)
    (is_admin : Bool)
    (hname : ∀ u ∈ db.users, u.username ≠ username)
    (hfresh : ∀ p ∈ db.user_progress, p.user_id ≠ db.next_user_id) :
    (add_user now efail db username password_hash profile_data is_admin).1 =
      some db.next_user_id ∧
    get_user_progress
      (add_user now efail db username password_hash profile_data is_admin).2
      db.next_user_id =
      { points := 0, completed_tutorials := [], completed_challenges := [],
        emoji_collection := [] } := by
  have hany : db.users.any (fun u => u.username == username) = false := by
    rw [List.any_eq_false]
    intro u hu
    simpa using hname u hu
  have hprog :
      (add_user now efail db username password_hash profile_data is_admin).2.user_progress
        = db.user_progress ++
          [{ id := db.next_progress_id, user_id := db.next_user_id, points := 0,
             completed_tutorials := [], completed_challenges := [],
             emoji_collection := [], last_updated := now }] := by
    simp only [add_user, hany, Bool.false_eq_true, if_false]
    rw [log_event_snd_user_progress]
  constructor
  · simp [add_user, hany]
  · simp only [get_user_progress]
    rw [hprog, List.find?_append]
    have h1 : db.user_progress.find? (fun p => p.user_id == db.next_user_id) = none :=
      List.find?_eq_none.mpr (fun p hp => by simpa using hfresh p hp)
    rw [h1]
    simp

/-- Witness for C3: adding `bob` to `sampleDB` yields id 2 with
zero-value progress. -/
theorem fresh_user_zero_progress_witness :
    (∀ u ∈ sampleDB.users, u.username ≠ "bob") ∧
    (add_user 20 false sampleDB "bob" "h2" none false).1 = some sampleDB.next_user_id ∧
    get_user_progress (add_user 20 false sampleDB "bob" "h2" none false).2
      sampleDB.next_user_id =
      { points := 0, completed_tutorials := [], completed_challenges := [],
        emoji_collection := [] } :=
  ⟨by decide,
   fresh_user_zero_progress 20 false sampleDB "bob" "h2" none false
     (by decide) (by decide)⟩

/-- C7: `complete_certificate` on a code matching no certificate row
returns `True` (silent success) and leaves the whole store — in particular
every certificate row — unchanged. -/
theorem complete_certificate_unknown_code (now : Nat) (efail : Bool) (db : DB)
    (code : String) (h : ∀ c ∈ db.certificates, c.certificate_code ≠ code) :
    complete_certificate now efail db code = (true, db) := by
  have hmap : db.certificates.map (fun c =>
      if c.certificate_code == code then { c with completed_date := some now }
      else c) = db.certificates :=
    map_eq_self_of_eq_id _ _ (fun c hc => by simp [h c hc])
  have hfind : db.certificates.find? (fun c => c.certificate_code == code) = none :=
    List.find?_eq_none.mpr (fun c hc => by simpa using h c hc)
  unfold complete_certificate
  dsimp only
  rw [hmap, hfind]

/-- Witness for C7: completing the unknown code `nope` on `sampleDB`. -/
theorem complete_certificate_unknown_code_witness :
    (∀ c ∈ sampleDB.certificates, c.certificate_code ≠ "nope") ∧
    complete_certificate 15 false sampleDB "nope" = (true, sampleDB) :=
  ⟨by decide, complete_certificate_unknown_code 15 false sampleDB "nope" (by decide)⟩

/-- C8: a failing event insert is swallowed inside `log_event` (it returns
normally and the store is simply left without the event), and `add_user`
still returns the new user's id — with no `user_created` event recorded —
when the event insert fails. -/
theorem log_failure_swallowed (now : Nat) (db : DB) (username password_hash : String)
    (profile_data : Option ProfileData) (is_admin : Bool)
    (hname : ∀ u ∈ db.users, u.username ≠ username) :
    (∀ (m : Nat) (d' : DB) (uid : Nat) (ty : String) (d : Option String),
        log_event m true d' uid ty d = ((), d')) ∧
    (add_user now true db username password_hash profile_data is_admin).1 =
      some db.next_user_id ∧
    (add_user now true db username password_hash profile_data is_admin).2.user_events =
      db.user_events := by
  have hany : db.users.any (fun u => u.username == username) = false := by
    rw [List.any_eq_false]
    intro u hu
    simpa using hname u hu
  refine ⟨fun m d' uid ty d => rfl, ?_, ?_⟩
  · simp [add_user, hany]
  · simp only [add_user, hany, Bool.false_eq_true, if_false]
    rfl

/-- Witness for C8: adding `carol` to `sampleDB` with the event insert
failing still returns id 2. -/
theorem log_failure_swallowed_witness :
    (∀ u ∈ sampleDB.users, u.username ≠ "carol") ∧
    ((∀ (m : Nat) (d' : DB) (uid : Nat) (ty : String) (d : Option String),
        log_event m true d' uid ty d = ((), d')) ∧
     (add_user 21 true sampleDB "carol" "h3" none false).1 = some sampleDB.next_user_id ∧
     (add_user 21 true sampleDB "carol" "h3" none false).2.user_events =
       sampleDB.user_events) :=
  ⟨by decide, log_failure_swallowed 21 sampleDB "carol" "h3" none false (by decide)⟩

/-- C10: the id-keyed mutations `update_user_profile`, `set_admin_status`
and `reset_user_password` return `True` even when no user row with the
target id exists (the UPDATE affects zero rows), so the boolean result does
not signal whether the user exists. -/
theorem mutations_true_on_missing_user (now : Nat) (efail : Bool) (db : DB)
    (uid : Nat) (profile_data : ProfileData) (is_admin : Bool) (new_hash : String)
    (h : ∀ u ∈ db.users, u.id ≠ uid) :
    update_user_profile db uid profile_data = (true, db) ∧
    set_admin_status db uid is_admin = (true, db) ∧
    (reset_user_password now efail db uid new_hash).1 = true ∧
    (reset_user_password now efail db uid new_hash).2.users = db.users := by
  refine ⟨?_, ?_, ?_, ?_⟩
  · unfold update_user_profile
    rw [map_eq_self_of_eq_id _ _ (fun u hu => by simp [h u hu])]
  · unfold set_admin_status
    rw [map_eq_self_of_eq_id _ _ (fun u hu => by simp [h u hu])]
  · rfl
  · unfold reset_user_password
    dsimp only
    rw [log_event_snd_users]
    rw [map_eq_self_of_eq_id _ _ (fun u hu => by simp [h u hu])]

/-- Witness for C10: no user of `sampleDB` has id 99. -/
theorem mutations_true_on_missing_user_witness :
    (∀ u ∈ sampleDB.users, u.id ≠ 99) ∧
    (update_user_profile sampleDB 99 ⟨none, none, none, none, none, none⟩ =
       (true, sampleDB) ∧
     set_admin_status sampleDB 99 true = (true, sampleDB) ∧
     (reset_user_password 22 false sampleDB 99 "nh").1 = true ∧
     (reset_user_password 22 false sampleDB 99 "nh").2.users = sampleDB.users) :=
  ⟨by decide,
   mutations_true_on_missing_user 22 false sampleDB 99
     ⟨none, none, none, none, none, none⟩ true "nh" (by decide)⟩

/-- C4: on a store with distinct user ids, zero admins and at least one
user row, running initialization promotes exactly one user to admin, and
running initialization again changes nothing (the bootstrap migration is
idempotent). -/
theorem migration_bootstrap (db : DB)
    (hnodup : (db.users.map (fun u => u.id)).Nodup)
    (hzero : db.users.countP (fun u => u.is_admin) = 0)
    (hne : db.users ≠ []) :
    (init_database db).users.countP (fun u => u.is_admin) = 1 ∧
    init_database (init_database db) = init_database db := by
  have hall : ∀ u ∈ db.users, u.is_admin = false := by
    intro u hu
    simpa using List.countP_eq_zero.mp hzero u hu
  rcases hu : db.users with _ | ⟨a, l⟩
  · exact absurd hu hne
  rw [hu] at hnodup
  simp only [List.map_cons, List.nodup_cons, List.mem_map, not_exists, not_and] at hnodup
  have hnotmem : ∀ v ∈ l, v.id ≠ a.id := hnodup.1
  have hcount : (init_database db).users.countP (fun u => u.is_admin) = 1 := by
    unfold init_database run_migrations
    dsimp only
    rw [hzero, if_pos rfl, hu]
    dsimp only [List.head?]
    rw [List.countP_map, List.countP_cons]
    have hpa : ((fun u => u.is_admin) ∘ fun v =>
        if v.id == a.id then { v with is_admin := true } else v) a = true := by
      simp
    have hl0 : l.countP ((fun u => u.is_admin) ∘ fun v =>
        if v.id == a.id then { v with is_admin := true } else v) = 0 := by
      rw [List.countP_eq_zero]
      intro v hv
      have hne' : v.id ≠ a.id := hnotmem v hv
      have hv' : v.is_admin = false := hall v (hu ▸ List.mem_cons_of_mem a hv)
      simp [Function.comp, hne', hv']
    rw [hpa, hl0]
    simp
  refine ⟨hcount, ?_⟩
  have hne0 : (init_database db).users.countP (fun u => u.is_admin) ≠ 0 := by
    rw [hcount]
    exact one_ne_zero
  exact run_migrations_of_admin _ hne0

/-- Witness for C4 on `sampleDB` (one non-admin user `alice`). -/
theorem migration_bootstrap_witness :
    ((sampleDB.users.map (fun u => u.id)).Nodup ∧
     sampleDB.users.countP (fun u => u.is_admin) = 0 ∧
     sampleDB.users ≠ []) ∧
    (init_database sampleDB).users.countP (fun u => u.is_admin) = 1 ∧
    init_database (init_database sampleDB) = init_database sampleDB :=
  ⟨⟨by decide, by decide, by decide⟩,
   migration_bootstrap sampleDB (by decide) (by decide) (by decide)⟩

theorem mem_insert_ts_desc (e y : EventRow) (l : List EventRow) :
    y ∈ insert_ts_desc e l ↔ y = e ∨ y ∈ l := by
  induction l with
  | nil => simp [insert_ts_desc]
  | cons x xs ih =>
    by_cases hx : x.timestamp ≤ e.timestamp
    · simp [insert_ts_desc, hx]
    · simp [insert_ts_desc, hx, ih]
      tauto

theorem pairwise_insert_ts_desc (e : EventRow) (l : List EventRow)
    (h : l.Pairwise (fun a b => b.timestamp ≤ a.timestamp)) :
    (insert_ts_desc e l).Pairwise (fun a b => b.timestamp ≤ a.timestamp) := by
  induction l with
  | nil => simp [insert_ts_desc]
  | cons x xs ih =>
    rw [List.pairwise_cons] at h
    by_cases hx : x.timestamp ≤ e.timestamp
    · rw [insert_ts_desc, if_pos hx, List.pairwise_cons]
      refine ⟨?_, List.pairwise_cons.mpr h⟩
      intro y hy
      rcases List.mem_cons.mp hy with rfl | hy'
      · exact hx
      · exact le_trans (h.1 y hy') hx
    · rw [insert_ts_desc, if_neg hx, List.pairwise_cons]
      refine ⟨?_, ih h.2⟩
      intro y hy
      rcases (mem_insert_ts_desc e y xs).mp hy with rfl | hy'
      · omega
      · exact h.1 y hy'

theorem pairwise_sort_ts_desc (l : List EventRow) :
    (sort_ts_desc l).Pairwise (fun a b => b.timestamp ≤ a.timestamp) := by
  induction l with
  | nil => simp [sort_ts_desc]
  | cons x xs ih => exact pairwise_insert_ts_desc x (sort_ts_desc xs) ih

/-- C6 counterexample: two events logged for user 1 in the same clock
second (`tieDB`) are returned with equal timestamps, so the result of
`get_user_events` is not strictly ordered by timestamp. -/
theorem get_user_events_not_strict :
    ¬ (get_user_events tieDB 1 50).Pairwise
        (fun a b => a.timestamp > b.timestamp) := by
  decide

/-- C6 (amended): for every user id and limit, `get_user_events` returns
at most `limit` entries, ordered newest-first by timestamp non-strictly
(timestamps non-increasing; entries sharing a timestamp may be adjacent). -/
theorem get_user_events_bounded_sorted (db : DB) (uid limit : Nat) :
    (get_user_events db uid limit).length ≤ limit ∧
    (get_user_events db uid limit).Pairwise
      (fun a b => b.timestamp ≤ a.timestamp) := by
  constructor
  · unfold get_user_events
    rw [List.length_map]
    exact List.length_take_le _ _
  · unfold get_user_events
    rw [List.pairwise_map]
    have hs := pairwise_sort_ts_desc
      (db.user_events.filter (fun e => e.user_id == uid))
    exact List.Pairwise.sublist (List.take_sublist _ _)
      (hs.imp (fun h => by simpa using h))

theorem find?_append_singleton_of_none {α : Type} (p : α → Bool) (l : List α)
    (a : α) (hl : l.find? p = none) (ha : p a = true) :
    (l ++ [a]).find? p = some a := by
  rw [List.find?_append, hl]
  simp [ha]

/-- C5 counterexample: `create_certificate` succeeds for a `user_id` with
no user row (the foreign key is not enforced), yet the returned code then
resolves via `verify_certificate` to `is_valid = false` (`none`), not
`is_valid = true` as claimed. -/
theorem create_verify_counterexample :
    (create_certificate 3 false "code1" DB.empty 7 "gold").1 = some "code1" ∧
    verify_certificate (create_certificate 3 false "code1" DB.empty 7 "gold").2
      "code1" = none := by
  decide

/-- C5 (amended): provided the certificate's `user_id` refers to an
existing user row and the generated code is fresh, the code returned by
`create_certificate` resolves via `verify_certificate` to `is_valid = true`
(a snapshot) with `is_completed = false`; after `complete_certificate` on
that code, re-verifying returns `is_completed = true` with a non-null
`completed_date`; and `verify_certificate` on a code matching no
certificate returns `is_valid = false` (`none`). -/
theorem certificate_create_complete_verify (db : DB) (now now2 : Nat)
    (efail efail2 : Bool) (code : String) (uid : Nat) (ty : String)
    (hcode : ∀ c ∈ db.certificates, c.certificate_code ≠ code)
    (huser : ∃ u ∈ db.users, u.id = uid) :
    (create_certificate now efail code db uid ty).1 = some code ∧
    (∃ s, verify_certificate (create_certificate now efail code db uid ty).2
        code = some s ∧ s.is_completed = false ∧ s.completed_date = none) ∧
    (∃ s, verify_certificate
        (complete_certificate now2 efail2
          (create_certificate now efail code db uid ty).2 code).2 code = some s ∧
      s.is_completed = true ∧ s.completed_date = some now2) ∧
    (∀ code2, (∀ c ∈ db.certificates, c.certificate_code ≠ code2) →
      verify_certificate db code2 = none) := by
  have hany : db.certificates.any (fun c => c.certificate_code == code) = false := by
    rw [List.any_eq_false]
    intro c hc
    simpa using hcode c hc
  have hfind_old : db.certificates.find? (fun c => c.certificate_code == code) = none :=
    List.find?_eq_none.mpr (fun c hc => by simpa using hcode c hc)
  have hcerts : (create_certificate now efail code db uid ty).2.certificates =
      db.certificates ++
        [{ id := db.next_cert_id, user_id := uid, certificate_type := ty,
           issue_date := now, certificate_code := code, completed_date := none }] := by
    simp only [create_certificate, hany, Bool.false_eq_true, if_false]
    rw [log_event_snd_certificates]
  have husers : (create_certificate now efail code db uid ty).2.users = db.users := by
    simp only [create_certificate, hany, Bool.false_eq_true, if_false]
    rw [log_event_snd_users]
  have huser' : (db.users.find? (fun u => u.id == uid)).isSome = true := by
    rw [List.find?_isSome]
    obtain ⟨u, hu1, hu2⟩ := huser
    exact ⟨u, hu1, by simpa using hu2⟩
  obtain ⟨u0, hu0⟩ := Option.isSome_iff_exists.mp huser'
  refine ⟨by simp [create_certificate, hany], ?_, ?_, ?_⟩
  · have hfind : (create_certificate now efail code db uid ty).2.certificates.find?
        (fun c => c.certificate_code == code) =
        some { id := db.next_cert_id, user_id := uid, certificate_type := ty,
               issue_date := now, certificate_code := code, completed_date := none } := by
      rw [hcerts]
      exact find?_append_singleton_of_none _ _ _ hfind_old (by simp)
    simp only [verify_certificate, hfind, husers]
    exact ⟨_, by rw [hu0], rfl, rfl⟩
  · have hcerts2 : (complete_certificate now2 efail2
        (create_certificate now efail code db uid ty).2 code).2.certificates =
        db.certificates ++
          [{ id := db.next_cert_id, user_id := uid, certificate_type := ty,
             issue_date := now, certificate_code := code,
             completed_date := some now2 }] := by
      rw [complete_certificate_snd_certificates, hcerts, List.map_append]
      rw [map_eq_self_of_eq_id _ _ (fun c hc => by simp [hcode c hc])]
      simp
    have husers2 : (complete_certificate now2 efail2
        (create_certificate now efail code db uid ty).2 code).2.users = db.users := by
      rw [complete_certificate_snd_users, husers]
    have hfind2 : (complete_certificate now2 efail2
        (create_certificate now efail code db uid ty).2 code).2.certificates.find?
        (fun c => c.certificate_code == code) =
        some { id := db.next_cert_id, user_id := uid, certificate_type := ty,
               issue_date := now, certificate_code := code,
               completed_date := some now2 } := by
      rw [hcerts2]
      exact find?_append_singleton_of_none _ _ _ hfind_old (by simp)
    simp only [verify_certificate, hfind2, husers2]
    exact ⟨_, by rw [hu0], rfl, rfl⟩
  · intro code2 h2
    have hn : db.certificates.find? (fun c => c.certificate_code == code2) = none :=
      List.find?_eq_none.mpr (fun c hc => by simpa using h2 c hc)
    simp [verify_certificate, hn]

/-- Witness for C5 (amended) on `sampleDB` (user 1 exists, code `xyz`
fresh). -/
theorem certificate_create_complete_verify_witness :
    ((∀ c ∈ sampleDB.certificates, c.certificate_code ≠ "xyz") ∧
     (∃ u ∈ sampleDB.users, u.id = 1)) ∧
    ((create_certificate 13 false "xyz" sampleDB 1 "gold").1 = some "xyz" ∧
     (∃ s, verify_certificate (create_certificate 13 false "xyz" sampleDB 1 "gold").2
         "xyz" = some s ∧ s.is_completed = false ∧ s.completed_date = none) ∧
     (∃ s, verify_certificate
         (complete_certificate 14 false
           (create_certificate 13 false "xyz" sampleDB 1 "gold").2 "xyz").2 "xyz" =
           some s ∧ s.is_completed = true ∧ s.completed_date = some 14) ∧
     (∀ code2, (∀ c ∈ sampleDB.certificates, c.certificate_code ≠ code2) →
       verify_certificate sampleDB code2 = none)) :=
  ⟨⟨by decide, by decide⟩,
   certificate_create_complete_verify sampleDB 13 14 false false "xyz" 1 "gold"
     (by decide) (by decide)⟩

theorem add_user_snd_certificates (now : Nat) (efail : Bool) (db : DB)
    (username password_hash : String) (profile_data : Option ProfileData)
    (is_admin : Bool) :
    (add_user now efail db username password_hash profile_data is_admin).2.certificates =
      db.certificates := by
  unfold add_user
  dsimp only
  split
  · rfl
  · rw [log_event_snd_certificates]

theorem reset_user_password_snd_certificates (now : Nat) (efail : Bool) (db : DB)
    (uid : Nat) (new_hash : String) :
    (reset_user_password now efail db uid new_hash).2.certificates =
      db.certificates := by
  unfold reset_user_password
  dsimp only
  rw [log_event_snd_certificates]

theorem create_certificate_snd_certificates_append (now : Nat) (efail : Bool)
    (code : String) (db : DB) (uid : Nat) (ty : String) :
    ∃ l, (create_certificate now efail code db uid ty).2.certificates =
      db.certificates ++ l := by
  unfold create_certificate
  dsimp only
  split
  · exact ⟨[], by simp⟩
  · exact ⟨_, by rw [log_event_snd_certificates]⟩

theorem run_migrations_certificates (db : DB) :
    (run_migrations db).certificates = db.certificates := by
  unfold run_migrations
  dsimp only
  split
  · split <;> rfl
  · rfl

/-- C9: every certificate row is created in the issued state — any row
present after `create_certificate` is either a pre-existing row or the new
row with `completed_date` null — and completion is irreversible: after any
store operation, a code that identified a completed certificate still
identifies an existing completed certificate (the date is never nulled and
the row never deleted), so the issued → completed transition can occur at
most once for a given row. -/
theorem certificate_lifecycle (db : DB) (code : String) (now : Nat)
    (efail : Bool) (uid : Nat) (ty : String) (op : Op)
    (hmem : ∃ c ∈ db.certificates, c.certificate_code = code ∧
      c.completed_date.isSome = true) :
    (∀ (code2 : String) (r : CertRow),
       r ∈ (create_certificate now efail code2 db uid ty).2.certificates →
       r ∈ db.certificates ∨
         (r.certificate_code = code2 ∧ r.completed_date = none)) ∧
    (∃ c ∈ (Op.step op db).certificates, c.certificate_code = code ∧
       c.completed_date.isSome = true) := by
  obtain ⟨c0, hc0, hcode0, hcomp0⟩ := hmem
  constructor
  · intro code2 r hr
    unfold create_certificate at hr
    dsimp only at hr
    split at hr
    · exact Or.inl hr
    · rw [log_event_snd_certificates] at hr
      dsimp only at hr
      rcases List.mem_append.mp hr with h | h
      · exact Or.inl h
      · right
        rw [List.mem_singleton.mp h]
        exact ⟨rfl, rfl⟩
  · cases op with
    | addUser now' efail' un ph pd adm =>
      simp only [Op.step]
      rw [add_user_snd_certificates]
      exact ⟨c0, hc0, hcode0, hcomp0⟩
    | updateLastLogin now' uid' => exact ⟨c0, hc0, hcode0, hcomp0⟩
    | updateUserProgress now' uid' pts t c e => exact ⟨c0, hc0, hcode0, hcomp0⟩
    | logEvent now' efail' uid' ty' d =>
      cases efail' <;> exact ⟨c0, hc0, hcode0, hcomp0⟩
    | createCertificate now' efail' code' uid' ty' =>
      obtain ⟨l, hl⟩ :=
        create_certificate_snd_certificates_append now' efail' code' db uid' ty'
      simp only [Op.step]
      rw [hl]
      exact ⟨c0, List.mem_append_left _ hc0, hcode0, hcomp0⟩
    | completeCertificate now' efail' code' =>
      simp only [Op.step]
      rw [complete_certificate_snd_certificates]
      refine ⟨_, List.mem_map_of_mem _ hc0, ?_, ?_⟩
      · split <;> exact hcode0
      · split
        · rfl
        · exact hcomp0
    | updateUserProfile uid' p => exact ⟨c0, hc0, hcode0, hcomp0⟩
    | setAdminStatus uid' adm => exact ⟨c0, hc0, hcode0, hcomp0⟩
    | resetUserPassword now' efail' uid' nh =>
      simp only [Op.step]
      rw [reset_user_password_snd_certificates]
      exact ⟨c0, hc0, hcode0, hcomp0⟩
    | initDatabase =>
      simp only [Op.step, init_database]
      rw [run_migrations_certificates]
      exact ⟨c0, hc0, hcode0, hcomp0⟩

/-- Witness for C9: `certDB` holds a completed certificate `abc`; the
probed operation is `set_admin_status`. -/
theorem certificate_lifecycle_witness :
    (∃ c ∈ certDB.certificates, c.certificate_code = "abc" ∧
       c.completed_date.isSome = true) ∧
    ((∀ (code2 : String) (r : CertRow),
        r ∈ (create_certificate 30 false code2 certDB 1 "silver").2.certificates →
        r ∈ certDB.certificates ∨
          (r.certificate_code = code2 ∧ r.completed_date = none)) ∧
     (∃ c ∈ (Op.step (Op.setAdminStatus 1 true) certDB).certificates,
        c.certificate_code = "abc" ∧ c.completed_date.isSome = true)) :=
  ⟨by decide,
   certificate_lifecycle certDB "abc" 30 false 1 "silver"
     (Op.setAdminStatus 1 true) (by decide)⟩
